import Mathlib

/-!
Verification development for the request-tracing middleware of the
`startup-rs` crates (`startup-http/src/trace.rs`,
`startup-monitoring/src/idgenerator.rs`, `startup-base/src/lib.rs`).

The Rust code is shallowly embedded: every span-affecting side effect
(attribute write, status write, exception record, end, link) is made
explicit as a `SpanOp` value, and each Rust function is translated into a
pure Lean function that returns both its value and the list of span
operations it performs, in program order.  Asynchronous polling
(`Poll::Pending` / `Poll::Ready`) is modelled by the `APoll` type; the
`futures_util::ready!` early return on `Pending` is translated as the
`pending` branch of each poll function.
-/

deriving instance DecidableEq for Except

/-- Rust `std::task::Poll`: a poll either suspends (`pending`) or produces
a value (`ready`). -/
inductive APoll (α : Type) where
  | pending : APoll α
  | ready : α → APoll α
deriving DecidableEq, Repr

/-- Errors are modelled by their `Debug` rendering, a string. -/
abbrev Err := String

/-- A body data chunk (`Bytes`), modelled as a string. -/
abbrev Chunk := String

/-- A header map, modelled as an association list of name/value pairs. -/
abbrev HeaderMap := List (String × String)

/-- Embedding of `opentelemetry::trace::StatusCode` (span status classification). -/
inductive OtelStatusCode where
  | unset : OtelStatusCode
  | ok : OtelStatusCode
  | error : OtelStatusCode
deriving DecidableEq, Repr

/-- Embedding of `opentelemetry::trace::SpanContext`: trace id, span id and the
remote-origin flag, as used by `ZipkinMakeSpan::make_span`. -/
structure SpanContext where
  traceId : List Nat
  spanId : List Nat
  isRemote : Bool
deriving DecidableEq, Repr

/-- The root (empty) span context: the context used when no upstream trace
context is present.  It is locally originated, not remote. -/
def SpanContext.root : SpanContext :=
  { traceId := [], spanId := [], isRemote := false }

/-- One observable operation performed on the span of a request.  These are
exactly the Span Recorder interface calls the middleware makes:
`set_attribute`, `set_status`, `record_exception`, `end`, `add_link`. -/
inductive SpanOp where
  | setAttribute : String → String → SpanOp
  | setStatus : OtelStatusCode → String → SpanOp
  | recordException : Err → SpanOp
  | endSpan : SpanOp
  | addLink : SpanContext → SpanOp
deriving DecidableEq, Repr

/-- Whether a span operation is the `end` signal. -/
def SpanOp.isEnd : SpanOp → Bool
  | SpanOp.endSpan => true
  | _ => false

/-- Embedding of `hyper::Method`, with the standard verbs matched explicitly by
`http_method_str` and a pass-through case for nonstandard ones. -/
inductive Method where
  | OPTIONS | GET | POST | PUT | DELETE | HEAD | TRACE | CONNECT | PATCH
  | other : String → Method
deriving DecidableEq, Repr

/-- Embedding of `hyper::Version`; the `other` case carries the `Debug` rendering used
by the fallback arm of `http_flavor`. -/
inductive Version where
  | HTTP_09 | HTTP_10 | HTTP_11 | HTTP_2 | HTTP_3
  | other : String → Version
deriving DecidableEq, Repr

/-- Embedding of `trace.rs::http_method_str`. -/
def http_method_str : Method → String
  | Method.OPTIONS => "OPTIONS"
  | Method.GET => "GET"
  | Method.POST => "POST"
  | Method.PUT => "PUT"
  | Method.DELETE => "DELETE"
  | Method.HEAD => "HEAD"
  | Method.TRACE => "TRACE"
  | Method.CONNECT => "CONNECT"
  | Method.PATCH => "PATCH"
  | Method.other s => s

/-- Embedding of `trace.rs::http_flavor`. -/
def http_flavor : Version → String
  | Version.HTTP_09 => "0.9"
  | Version.HTTP_10 => "1.0"
  | Version.HTTP_11 => "1.1"
  | Version.HTTP_2 => "2.0"
  | Version.HTTP_3 => "3.0"
  | Version.other s => s

/-- An HTTP header value (`http::HeaderValue`): raw bytes plus whether
`to_str()` succeeds (the value is valid visible text). -/
structure HeaderValue where
  raw : String
  isValidText : Bool
deriving DecidableEq, Repr

/-- Embedding of `http::HeaderValue::to_str`, at the granularity this code observes:
`some raw` when the value is valid text, `none` otherwise. -/
def HeaderValue.to_str (v : HeaderValue) : Option String :=
  if v.isValidText then some v.raw else none

/-- The parts of an incoming `Request` read by `Service::call` when it
builds span-creation attributes. -/
structure RequestModel where
  method : Method
  version : Version
  uri : String
  path_and_query : Option String
  user_agent : Option HeaderValue
deriving DecidableEq, Repr

/-- Attribute key `opentelemetry_semantic_conventions::trace::HTTP_METHOD`. -/
def HTTP_METHOD : String := "http.method"

/-- Attribute key `HTTP_FLAVOR`. -/
def HTTP_FLAVOR : String := "http.flavor"

/-- Attribute key `HTTP_URL`. -/
def HTTP_URL : String := "http.url"

/-- Attribute key `HTTP_TARGET`. -/
def HTTP_TARGET : String := "http.target"

/-- Attribute key `HTTP_USER_AGENT`. -/
def HTTP_USER_AGENT : String := "http.user_agent"

/-- Attribute key `HTTP_STATUS_CODE`. -/
def HTTP_STATUS_CODE : String := "http.status_code"

/-- Embedding of `trace.rs` `Service::call`, lines 127-137: the span-creation attribute
list.  Method, flavor and full URL are always pushed; `HTTP_TARGET` only
when the URI has a path-and-query; `HTTP_USER_AGENT` only when the
`User-Agent` header is present and `to_str()` succeeds. -/
def buildAttributes (req : RequestModel) : List (String × String) :=
  let base := [(HTTP_METHOD, http_method_str req.method),
               (HTTP_FLAVOR, http_flavor req.version),
               (HTTP_URL, req.uri)]
  let withTarget :=
    match req.path_and_query with
    | some p => base ++ [(HTTP_TARGET, p)]
    | none => base
  match req.user_agent.bind HeaderValue.to_str with
  | some ua => withTarget ++ [(HTTP_USER_AGENT, ua)]
  | none => withTarget

/-- The keys of the span-creation attributes of a request. -/
def attrKeys (req : RequestModel) : List String :=
  (buildAttributes req).map Prod.fst

/-- Embedding of `trace.rs` `ZipkinMakeSpan::make_span`, lines 33-48: read the span context of
the ambient context and, when its origin is remote, add a causal link
to it.  Returns the span operations performed on the freshly made span. -/
def ZipkinMakeSpan.make_span (current : SpanContext) : List SpanOp :=
  if current.isRemote then [SpanOp.addLink current] else []

/-- Modelled from the spec: the Context Propagator is an external
collaborator (spec sections 2, 6 and 7), consumed only.  Per section 7,
malformed or missing trace-context headers are treated as "no upstream
context" and the span is created as a root span; a present `traceparent`
header yields a remotely-originated context.  Id decoding is
an internal detail of the propagator and is not modelled. -/
def propagator_extract (headers : HeaderMap) : SpanContext :=
  match (headers.find? (fun kv => kv.1 = "traceparent")).map Prod.snd with
  | some _ => { traceId := [], spanId := [], isRemote := true }
  | none => SpanContext.root

/-- An HTTP `Response<B>`: status code, version, headers, extensions and a
body of type `β`.  `http::StatusCode` admits codes 100 through 999;
extensions are opaque and modelled by a `Nat` tag. -/
structure Response (β : Type) where
  status : Nat
  version : Version
  headers : HeaderMap
  extensions : Nat
  body : β
deriving DecidableEq, Repr

/-- Embedding of `http::Response::map`: replace the body, leave status, version, headers
and extensions untouched. -/
def Response.mapBody {β γ : Type} (f : β → γ) (r : Response β) : Response γ :=
  { status := r.status, version := r.version, headers := r.headers,
    extensions := r.extensions, body := f r.body }

/-- Embedding of `http::StatusCode::is_server_error`: true exactly for 500..=599. -/
def is_server_error (s : Nat) : Bool := 500 ≤ s && s ≤ 599

/-- Embedding of `trace.rs::EndSpanBody` (lines 211-216): the Response Body Proxy.  It
wraps exactly one inner body; the span context it also carries is implicit
in the trace model, where the polls of the proxy emit `SpanOp`s directly. -/
structure EndSpanBody (β : Type) where
  body : β
deriving DecidableEq, Repr

/-- Rust `format!("\x7b:?\x7d", error)`: errors are already modelled by
their `Debug` rendering, so this is the identity. -/
def format_debug (e : Err) : String := e

/-- Embedding of `trace.rs` `Service::call`, the completion continuation (lines
148-177): on `Ok`, record the status-code attribute, mark the span `Error`
with the canonical reason of the status when the status is in the server-error
class, and wrap the body in an `EndSpanBody` — the span is not ended here.
On `Err`, mark the span `Error` with the `Debug` rendering of the error, record
the exception, end the span, and pass the error through unchanged.
`canonical_reason` is `http::StatusCode::canonical_reason`, an external
table, taken as a parameter; `unwrap_or_default` yields `""` when it has
no entry. -/
def Service.handleResult {β : Type} (canonical_reason : Nat → Option String)
    (res : Except Err (Response β)) :
    Except Err (Response (EndSpanBody β)) × List SpanOp :=
  match res with
  | Except.ok ok_res =>
      let ops := [SpanOp.setAttribute HTTP_STATUS_CODE (toString ok_res.status)] ++
        (if is_server_error ok_res.status then
          [SpanOp.setStatus OtelStatusCode.error
            ((canonical_reason ok_res.status).getD "")]
        else [])
      (Except.ok (ok_res.mapBody (fun b => EndSpanBody.mk b)), ops)
  | Except.error e =>
      (Except.error e,
        [SpanOp.setStatus OtelStatusCode.error (format_debug e),
         SpanOp.recordException e,
         SpanOp.endSpan])

/-- Embedding of `trace.rs` `EndSpanBody::poll_data` (lines 222-236).  The argument is
the poll result of the wrapped body itself; `futures_util::ready!` propagates
`Pending` untouched.  On `Ready result`, the source ends the span when
`result.is_some()` — that is, when a chunk (or a body error) was yielded —
and then passes `result` through unchanged. -/
def EndSpanBody.poll_data (inner : APoll (Option (Except Err Chunk))) :
    APoll (Option (Except Err Chunk)) × List SpanOp :=
  match inner with
  | APoll.pending => (APoll.pending, [])
  | APoll.ready result =>
      (APoll.ready result, if result.isSome then [SpanOp.endSpan] else [])

/-- Embedding of `trace.rs` `EndSpanBody::poll_trailers` (lines 238-250).  `Pending` is
propagated untouched; once the trailer fetch of the wrapped body completes, the
span is ended unconditionally and the result passed through unchanged. -/
def EndSpanBody.poll_trailers (inner : APoll (Except Err (Option HeaderMap))) :
    APoll (Except Err (Option HeaderMap)) × List SpanOp :=
  match inner with
  | APoll.pending => (APoll.pending, [])
  | APoll.ready result => (APoll.ready result, [SpanOp.endSpan])

/-- One pull performed by the consumer of the Response Body Proxy, carrying
the poll result of the wrapped body for that pull. -/
inductive BodyPoll where
  | data : APoll (Option (Except Err Chunk)) → BodyPoll
  | trailers : APoll (Except Err (Option HeaderMap)) → BodyPoll
deriving DecidableEq, Repr

/-- The span operations the proxy performs on one pull. -/
def bodyPollOps : BodyPoll → List SpanOp
  | BodyPoll.data r => (EndSpanBody.poll_data r).2
  | BodyPoll.trailers r => (EndSpanBody.poll_trailers r).2

/-- The complete sequence of operations performed on the span of one request, in
program order: span-creation attributes, the causal link added by
`make_span` when the ambient context is remote, the completion
operations of the completion continuation, and — on the success path only — the operations
of every later pull on the Response Body Proxy.  On the failure path no
proxy exists, so no pulls occur. -/
def requestTrace {β : Type} (canonical_reason : Nat → Option String)
    (req : RequestModel) (current : SpanContext)
    (res : Except Err (Response β)) (polls : List BodyPoll) : List SpanOp :=
  ((buildAttributes req).map (fun kv => SpanOp.setAttribute kv.1 kv.2)) ++
  ZipkinMakeSpan.make_span current ++
  (Service.handleResult canonical_reason res).2 ++
  (match res with
   | Except.ok _ => (polls.map bodyPollOps).flatten
   | Except.error _ => [])

/-- All operations in the list are `end` signals. -/
def onlyEnds : List SpanOp → Bool
  | [] => true
  | o :: rest => o.isEnd && onlyEnds rest

/-- No attribute write, status write or exception record occurs after an
`end`: once the first `end` appears, every later operation is `end`. -/
def noWriteAfterEnd : List SpanOp → Bool
  | [] => true
  | o :: rest => if o.isEnd then onlyEnds rest else noWriteAfterEnd rest

/-- Embedding of `idgenerator.rs` `IdGenerator64::new_trace_id` (lines 14-23): start
from 16 zero bytes and fill only `bytes[8..]` from the thread-local random
source, modelled as the 8 drawn bytes. -/
def new_trace_id (rand : List Nat) : List Nat :=
  List.replicate 8 0 ++ rand

/-- Embedding of `idgenerator.rs` `IdGenerator64::new_span_id` (lines 26-28): the 8
bytes drawn from the thread-local random source, unchanged. -/
def new_span_id (rand : List Nat) : List Nat := rand

/-- Embedding of `tracing_subscriber::reload::Handle`, at the granularity
`replace_tracing_layer` observes it: the outcome of `handler.reload(..)`,
an external call that can itself fail. -/
structure ReloadHandle where
  reload_result : Except String Unit
deriving DecidableEq, Repr

/-- Embedding of `startup-base/src/lib.rs` `replace_tracing_layer` (lines 89-98): when
the process-wide registry holds a handle, delegate to `reload` and
propagate its outcome; when the registry was never initialized, report an
error instead of silently doing nothing. -/
def replace_tracing_layer (registry : Option ReloadHandle) :
    Except String Unit :=
  match registry with
  | some handler =>
      match handler.reload_result with
      | Except.ok _ => Except.ok ()
      | Except.error e => Except.error e
  | none => Except.error "tracing handler not yet initialized"

/-- Embedding of `startup-base/src/lib.rs` `init` (line 69): the one-time
initialization stores the reload handle in the process-wide registry. -/
def init_registry (h : ReloadHandle) : Option ReloadHandle := some h

/-- Number of `end` signals in an operation sequence. -/
def endCount (ops : List SpanOp) : Nat := ops.countP (fun o => o.isEnd)

/-- Concrete sample response with status 600: `http::StatusCode` admits
codes up to 999, and 600 lies outside the 500..=599 server-error class. -/
def resp600 : Response Chunk :=
  { status := 600, version := Version.HTTP_11, headers := [],
    extensions := 0, body := "b" }

/-- Concrete sample response with status 503 (Service Unavailable). -/
def resp503 : Response Chunk :=
  { status := 503, version := Version.HTTP_11, headers := [],
    extensions := 0, body := "b" }

/-- Concrete canonical-reason table fragment used by witnesses. -/
def cr503 : Nat → Option String :=
  fun s => if s = 503 then some "Service Unavailable" else none

lemma endCount_append (l m : List SpanOp) :
    endCount (l ++ m) = endCount l + endCount m := by
  simp [endCount, List.countP_append]

lemma endCount_attrOps (kvs : List (String × String)) :
    endCount (kvs.map (fun kv => SpanOp.setAttribute kv.1 kv.2)) = 0 := by
  simp [endCount, List.countP_eq_zero, SpanOp.isEnd]

lemma endCount_make_span (ctx : SpanContext) :
    endCount (ZipkinMakeSpan.make_span ctx) = 0 := by
  cases h : ctx.isRemote <;>
    simp [ZipkinMakeSpan.make_span, h, endCount, List.countP_cons, SpanOp.isEnd]

lemma endCount_handle_ok {β : Type} (cr : Nat → Option String)
    (r : Response β) :
    endCount (Service.handleResult cr (Except.ok r)).2 = 0 := by
  cases h : is_server_error r.status <;>
    simp [Service.handleResult, h, endCount, List.countP_cons,
      List.countP_append, SpanOp.isEnd]

lemma onlyEnds_append (l m : List SpanOp) :
    onlyEnds (l ++ m) = (onlyEnds l && onlyEnds m) := by
  induction l with
  | nil => simp [onlyEnds]
  | cons o rest ih => simp [onlyEnds, ih, Bool.and_assoc]

lemma noWriteAfterEnd_of_onlyEnds (l : List SpanOp)
    (h : onlyEnds l = true) : noWriteAfterEnd l = true := by
  induction l with
  | nil => rfl
  | cons o rest ih =>
      have ho : o.isEnd = true := by
        cases hoe : o.isEnd with
        | true => rfl
        | false => simp [onlyEnds, hoe] at h
      have hrest : onlyEnds rest = true := by
        cases hor : onlyEnds rest with
        | true => rfl
        | false => simp [onlyEnds, hor] at h
      simp [noWriteAfterEnd, ho, hrest]

lemma noWriteAfterEnd_append_left (l m : List SpanOp)
    (hl : endCount l = 0) (hm : noWriteAfterEnd m = true) :
    noWriteAfterEnd (l ++ m) = true := by
  induction l with
  | nil => simpa using hm
  | cons o rest ih =>
      have ho : o.isEnd = false := by
        cases hoe : o.isEnd with
        | false => rfl
        | true => simp [endCount, List.countP_cons, hoe] at hl
      have hrest : endCount rest = 0 := by
        simpa [endCount, List.countP_cons, ho] using hl
      simp [noWriteAfterEnd, ho, ih hrest]

lemma onlyEnds_bodyPollOps (p : BodyPoll) : onlyEnds (bodyPollOps p) = true := by
  cases p with
  | data r =>
      cases r with
      | pending => rfl
      | ready result => cases result <;> rfl
  | trailers r => cases r <;> rfl

lemma onlyEnds_flatten_bodyPollOps (polls : List BodyPoll) :
    onlyEnds ((polls.map bodyPollOps).flatten) = true := by
  induction polls with
  | nil => rfl
  | cons p rest ih =>
      simp [List.map_cons, List.flatten_cons, onlyEnds_append,
        onlyEnds_bodyPollOps p, ih]

/-- C1: evaluation of the Response Body Proxy data-pull at the failing
input.  The claim states that a data-pull yielding a chunk leaves the span
open and that the data-pull yielding "no more data" ends it; the source
(`EndSpanBody::poll_data`, guarded by `result.is_some()`) does the exact
opposite: it emits the end signal on the pull that yields the chunk and
emits nothing on the pull that yields `None`. -/
theorem poll_data_ends_span_on_chunk_not_on_completion :
    (EndSpanBody.poll_data (APoll.ready (some (Except.ok "chunk1")))).2 =
      [SpanOp.endSpan] ∧
    (EndSpanBody.poll_data (APoll.ready none)).2 = [] :=
  ⟨rfl, rfl⟩

/-- C2: every trailer-pull whose underlying fetch completes ends the
wrapped span, whatever the fetch returned, and passes the result through;
the proxy keeps no suppression state, so this holds whether or not an
earlier data-pull already ended the span.  In the concrete stream of three
chunks followed by trailers, the terminal trailer-pull emits the end
signal. -/
theorem poll_trailers_always_ends_span (r : Except Err (Option HeaderMap)) :
    (EndSpanBody.poll_trailers (APoll.ready r)).2 = [SpanOp.endSpan] ∧
    (EndSpanBody.poll_trailers (APoll.ready r)).1 = APoll.ready r ∧
    ([BodyPoll.data (APoll.ready (some (Except.ok "c1"))),
      BodyPoll.data (APoll.ready (some (Except.ok "c2"))),
      BodyPoll.data (APoll.ready (some (Except.ok "c3"))),
      BodyPoll.data (APoll.ready none),
      BodyPoll.trailers
        (APoll.ready (Except.ok (some [("grpc-status", "0")])))].map
      bodyPollOps).getLast? = some [SpanOp.endSpan] :=
  ⟨rfl, rfl, rfl⟩

/-- C3: on the failure path the middleware sets the span status to Error
with the textual rendering of the error, records the exception, ends the
span, and propagates the error unchanged, in that order; over the whole
request exactly one end signal is emitted, and no Response Body Proxy
exists on this path, so no body pulls contribute operations. -/
theorem middleware_failure_path (cr : Nat → Option String)
    (req : RequestModel) (ctx : SpanContext) (e : Err)
    (polls : List BodyPoll) :
    Service.handleResult (β := Chunk) cr (Except.error e) =
      (Except.error e,
        [SpanOp.setStatus OtelStatusCode.error (format_debug e),
         SpanOp.recordException e,
         SpanOp.endSpan]) ∧
    endCount (requestTrace (β := Chunk) cr req ctx (Except.error e) polls)
      = 1 := by
  refine ⟨rfl, ?_⟩
  simp only [requestTrace]
  rw [endCount_append, endCount_append, endCount_append,
    endCount_attrOps, endCount_make_span]
  rfl

/-- C4 counterexample: 600 is an admissible status code and is ≥ 500, yet
the success path records only the status-code attribute and sets no Error
status, because `is_server_error` covers exactly the class 500..=599. -/
theorem status600_success_not_marked_error :
    500 ≤ 600 ∧ is_server_error 600 = false ∧
    (Service.handleResult (fun _ => none) (Except.ok resp600)).2 =
      [SpanOp.setAttribute HTTP_STATUS_CODE "600"] :=
  ⟨by decide, by decide, rfl⟩

/-- C4 (amended): for every successful response the numeric status code is
recorded as a span attribute; when the status lies in the server-error
class 500..=599 the span status is set to Error carrying the canonical
reason text of the status (the empty string when the external table has
none), and for any status outside 500..=599 — including codes of 600 and
above — no Error status is set. -/
theorem status_code_attribute_and_server_error_status
    (cr : Nat → Option String) (r : Response Chunk) :
    SpanOp.setAttribute HTTP_STATUS_CODE (toString r.status) ∈
      (Service.handleResult cr (Except.ok r)).2 ∧
    (500 ≤ r.status ∧ r.status ≤ 599 →
      SpanOp.setStatus OtelStatusCode.error ((cr r.status).getD "") ∈
        (Service.handleResult cr (Except.ok r)).2) ∧
    (¬(500 ≤ r.status ∧ r.status ≤ 599) →
      ∀ m, SpanOp.setStatus OtelStatusCode.error m ∉
        (Service.handleResult cr (Except.ok r)).2) := by
  have hiff : is_server_error r.status = true ↔
      (500 ≤ r.status ∧ r.status ≤ 599) := by
    simp [is_server_error]
  refine ⟨?_, ?_, ?_⟩
  · cases h : is_server_error r.status <;> simp [Service.handleResult, h]
  · intro hc
    have h : is_server_error r.status = true := hiff.mpr hc
    simp [Service.handleResult, h]
  · intro hc m
    have h : is_server_error r.status = false := by
      cases hse : is_server_error r.status with
      | true => exact absurd (hiff.mp hse) hc
      | false => rfl
    simp [Service.handleResult, h]

/-- C4 witness: the amended theorem evaluated at a concrete 503 response
with the canonical reason "Service Unavailable". -/
theorem status_code_attribute_and_server_error_status_witness :
    SpanOp.setAttribute HTTP_STATUS_CODE "503" ∈
      (Service.handleResult cr503 (Except.ok resp503)).2 ∧
    SpanOp.setStatus OtelStatusCode.error "Service Unavailable" ∈
      (Service.handleResult cr503 (Except.ok resp503)).2 :=
  ⟨(status_code_attribute_and_server_error_status cr503 resp503).1,
   (status_code_attribute_and_server_error_status cr503 resp503).2.1
     (by decide)⟩

/-- C5: on every execution path — failure, success, and any sequence of
later pulls on the Response Body Proxy — no attribute write, status write
or exception record occurs after an end signal: once the first end appears
in the span operation sequence of a request, every later operation is
itself an end. -/
theorem no_write_after_end (cr : Nat → Option String) (req : RequestModel)
    (ctx : SpanContext) (res : Except Err (Response Chunk))
    (polls : List BodyPoll) :
    noWriteAfterEnd (requestTrace cr req ctx res polls) = true := by
  cases res with
  | ok r =>
      simp only [requestTrace]
      rw [List.append_assoc, List.append_assoc]
      refine noWriteAfterEnd_append_left _ _ (endCount_attrOps _) ?_
      refine noWriteAfterEnd_append_left _ _ (endCount_make_span ctx) ?_
      refine noWriteAfterEnd_append_left _ _ (endCount_handle_ok cr r) ?_
      exact noWriteAfterEnd_of_onlyEnds _ (onlyEnds_flatten_bodyPollOps polls)
  | error e =>
      simp only [requestTrace]
      rw [List.append_assoc, List.append_assoc]
      refine noWriteAfterEnd_append_left _ _ (endCount_attrOps _) ?_
      refine noWriteAfterEnd_append_left _ _ (endCount_make_span ctx) ?_
      rfl

/-- C6: a remote ambient span context receives a causal link to exactly
that context at span creation; a header collection carrying no
trace-context header extracts to the root context, which is not remote and
receives no link. -/
theorem remote_linked_and_rootless_unlinked (ctx : SpanContext)
    (headers : HeaderMap) (hremote : ctx.isRemote = true)
    (hnone : headers.find? (fun kv => kv.1 = "traceparent") = none) :
    ZipkinMakeSpan.make_span ctx = [SpanOp.addLink ctx] ∧
    propagator_extract headers = SpanContext.root ∧
    (propagator_extract headers).isRemote = false ∧
    ZipkinMakeSpan.make_span (propagator_extract headers) = [] := by
  have hex : propagator_extract headers = SpanContext.root := by
    simp [propagator_extract, hnone]
  refine ⟨by simp [ZipkinMakeSpan.make_span, hremote], hex, ?_, ?_⟩
  · rw [hex]; rfl
  · rw [hex]; rfl

/-- C6 witness: a concrete remote context and a concrete header collection
without a trace-context header. -/
theorem remote_linked_and_rootless_unlinked_witness :
    ZipkinMakeSpan.make_span
        { traceId := [1], spanId := [2], isRemote := true } =
      [SpanOp.addLink { traceId := [1], spanId := [2], isRemote := true }] ∧
    propagator_extract [("accept", "text/html")] = SpanContext.root ∧
    (propagator_extract [("accept", "text/html")]).isRemote = false ∧
    ZipkinMakeSpan.make_span (propagator_extract [("accept", "text/html")])
      = [] :=
  remote_linked_and_rootless_unlinked _ _ rfl (by decide)

/-- C7: the span-creation attribute keys always include method, protocol
version and full URL; the target key is present exactly when the URI has a
path-and-query, and the user-agent key exactly when the header is present
and is valid text; an absent optional attribute contributes no key (and
hence no empty-string value) at all. -/
theorem span_creation_attribute_keys (req : RequestModel) :
    HTTP_METHOD ∈ attrKeys req ∧
    HTTP_FLAVOR ∈ attrKeys req ∧
    HTTP_URL ∈ attrKeys req ∧
    (HTTP_TARGET ∈ attrKeys req ↔ req.path_and_query.isSome = true) ∧
    (HTTP_USER_AGENT ∈ attrKeys req ↔
      (req.user_agent.bind HeaderValue.to_str).isSome = true) := by
  rcases hpq : req.path_and_query with _ | p <;>
    rcases hua : req.user_agent.bind HeaderValue.to_str with _ | ua <;>
      simp [attrKeys, buildAttributes, hpq, hua, HTTP_METHOD, HTTP_FLAVOR,
        HTTP_URL, HTTP_TARGET, HTTP_USER_AGENT]

/-- C8: the generated trace identifier is 16 bytes whose high-order 8
bytes are zero, with the low-order 8 bytes exactly the bytes drawn from
the random source; the generated span identifier is exactly the 8 drawn
random bytes, with no further structure imposed. -/
theorem id_generator_structure (rand : List Nat) (h : rand.length = 8) :
    (new_trace_id rand).length = 16 ∧
    (new_trace_id rand).take 8 = List.replicate 8 0 ∧
    (new_trace_id rand).drop 8 = rand ∧
    new_span_id rand = rand ∧
    (new_span_id rand).length = 8 := by
  refine ⟨?_, ?_, ?_, rfl, h⟩
  · simp [new_trace_id, h]
  · rw [new_trace_id, List.take_left' (by simp)]
  · rw [new_trace_id, List.drop_left' (by simp)]

/-- C8 witness: the id generator evaluated on a concrete draw of 8 random
bytes. -/
theorem id_generator_structure_witness :
    ([9, 8, 7, 6, 5, 4, 3, 2] : List Nat).length = 8 ∧
    ((new_trace_id [9, 8, 7, 6, 5, 4, 3, 2]).length = 16 ∧
      (new_trace_id [9, 8, 7, 6, 5, 4, 3, 2]).take 8 = List.replicate 8 0 ∧
      (new_trace_id [9, 8, 7, 6, 5, 4, 3, 2]).drop 8 = [9, 8, 7, 6, 5, 4, 3, 2] ∧
      new_span_id [9, 8, 7, 6, 5, 4, 3, 2] = [9, 8, 7, 6, 5, 4, 3, 2] ∧
      (new_span_id [9, 8, 7, 6, 5, 4, 3, 2]).length = 8) :=
  ⟨by decide, id_generator_structure [9, 8, 7, 6, 5, 4, 3, 2] (by decide)⟩

/-- C9: invoking the runtime sink replacement while the process-wide
registry was never initialized yields an error rather than silently doing
nothing; once the one-time initialization has stored the handle, a
replacement whose delegate reload succeeds returns success. -/
theorem replace_layer_requires_initialization (h : ReloadHandle)
    (hok : h.reload_result = Except.ok ()) :
    replace_tracing_layer none =
      Except.error "tracing handler not yet initialized" ∧
    replace_tracing_layer (init_registry h) = Except.ok () := by
  refine ⟨rfl, ?_⟩
  simp [replace_tracing_layer, init_registry, hok]

/-- C9 witness: the replacement behaviour evaluated on a concrete handle
whose reload succeeds. -/
theorem replace_layer_requires_initialization_witness :
    (ReloadHandle.mk (Except.ok ())).reload_result = Except.ok () ∧
    (replace_tracing_layer none =
        Except.error "tracing handler not yet initialized" ∧
      replace_tracing_layer (init_registry (ReloadHandle.mk (Except.ok ())))
        = Except.ok ()) :=
  ⟨rfl, replace_layer_requires_initialization (ReloadHandle.mk (Except.ok ()))
    rfl⟩

/-- C10: on the success path only the body changes — status code, version,
headers and extensions are returned to the caller unchanged, the body
being wrapped in the proxy — and every pull on the proxy returns exactly
the poll result produced by the wrapped inner body. -/
theorem success_path_frame_effect (cr : Nat → Option String)
    (r : Response Chunk) (d : APoll (Option (Except Err Chunk)))
    (t : APoll (Except Err (Option HeaderMap))) :
    (Service.handleResult cr (Except.ok r)).1 =
      Except.ok { status := r.status, version := r.version,
                  headers := r.headers, extensions := r.extensions,
                  body := EndSpanBody.mk r.body } ∧
    (EndSpanBody.poll_data d).1 = d ∧
    (EndSpanBody.poll_trailers t).1 = t := by
  refine ⟨rfl, ?_, ?_⟩
  · cases d <;> rfl
  · cases t <;> rfl
